/-
Verification of the OPTAA / PAR optical data-product functions
(`ion_functions/data/opt_functions.py`) against their specification.

Arrays are modelled as `List ℚ`, 2-D numpy arrays as `List (List ℚ)`
(rows = wavelength channels).  Python exceptions are modelled with
`Except String`.  The transcendental `np.log` is modelled as an explicit
function argument `log : ℚ → ℚ`, and the process-wide `tscor` dictionary
(defined in `opt_functions_tscor.py`, external data) as an explicit
partial map `tscor : ℚ → Option (ℚ × ℚ × ℚ)`, following the spec's data
model (rounded wavelength ↦ (temp coef, salinity coef for attenuation,
salinity coef for absorption)).
-/
import Mathlib

namespace OptFunctions

/-- Index of the last entry of `tbins` whose value is strictly below `t`:
`np.nonzero(tbins - tintrn < 0)[0][-1]` in `opt_pd_calc`.
`none` models the `IndexError` raised on an empty index list. -/
def lowerBracket (tbins : List ℚ) (t : ℚ) : Option ℕ :=
  ((List.range tbins.length).filter (fun i => tbins.getD i 0 - t < 0)).getLast?

/-- Index of the first entry of `tbins` whose value is strictly above `t`:
`np.nonzero(tintrn - tbins < 0)[0][0]` in `opt_pd_calc`.
`none` models the `IndexError` raised on an empty index list. -/
def upperBracket (tbins : List ℚ) (t : ℚ) : Option ℕ :=
  ((List.range tbins.length).filter (fun i => t - tbins.getD i 0 < 0)).head?

/-- Error message built in `opt_pd_calc` when the offset length differs
from the signal/reference length. -/
def offsetErrorString (o n : ℕ) : String :=
  "The number of calibration offset channels (" ++ toString o ++
  ") from the cal devfile must match the number of Signal and Reference channels (" ++
  toString n ++ ") from the rawdata."

/-- Error message built in `opt_pd_calc` when the correction-table row
count differs from the wavelength-channel count. -/
def rErrorString (r n : ℕ) : String :=
  "The number of rows in the internal temperature compensation calibration array (" ++
  toString r ++ ") must match the number of wavelength channels in the rawdata (" ++
  toString n ++ ")."

/-- Error message built in `opt_pd_calc` when the correction-table column
count differs from the temperature-bin count. -/
def cErrorString (c t : ℕ) : String :=
  "Number of columns in the internal temperature compensation calibration array (" ++
  toString c ++ ") must match the number of internal temp comp cal bin values = (" ++
  toString t ++ ")."

/-- Embedding of `opt_pd_calc(ref, sig, offset, tintrn, tbins, tarray)`:
shape validation, temperature-bin bracketing, linear interpolation of the
internal-temperature correction, and the uncorrected optical density
`(offset - (1/0.25) * log(sig/ref)) - deltaT`.  Returns `(pd, deltaT)`. -/
def opt_pd_calc (log : ℚ → ℚ) (ref sig offset : List ℚ) (tintrn : ℚ)
    (tbins : List ℚ) (tarray : List (List ℚ)) :
    Except String (List ℚ × List ℚ) :=
  if ref.length ≠ sig.length then
    .error "Reference and Signal arrays must be the same length"
  else
    let nValues := sig.length
    if offset.length ≠ nValues then
      .error (offsetErrorString offset.length nValues)
    else
      let tValues := tbins.length
      let r := tarray.length
      let c := (tarray.headD []).length
      if r ≠ nValues then
        .error (rErrorString r nValues)
      else if c ≠ tValues then
        .error (cErrorString c tValues)
      else
        match lowerBracket tbins tintrn, upperBracket tbins tintrn with
        | some ind1, some ind2 =>
          let T0 := tbins.getD ind1 0
          let T1 := tbins.getD ind2 0
          let dT0 := tarray.map (fun row => row.getD ind1 0)
          let dT1 := tarray.map (fun row => row.getD ind2 0)
          let deltaT := List.zipWith
            (fun a b => a + ((tintrn - T0) / (T1 - T0)) * (b - a)) dT0 dT1
          let uncorr := List.zipWith
            (fun o lr => o - (1 / (0.25 : ℚ)) * log lr) offset
            (List.zipWith (fun s g => s / g) sig ref)
          let pd := List.zipWith (fun u d => u - d) uncorr deltaT
          .ok (pd, deltaT)
        | _, _ =>
          .error "IndexError: temperature bracketing index out of bounds"

/-- Looks every wavelength up in the `tscor` table:
`np.array([tscor[ii] for ii in wlngth])` in `opt_tempsal_corr`;
`none` models the `KeyError` raised on a missing key. -/
def lookupAll (tscor : ℚ → Option (ℚ × ℚ × ℚ)) :
    List ℚ → Option (List (ℚ × ℚ × ℚ))
  | [] => some []
  | w :: ws =>
    match tscor w, lookupAll tscor ws with
    | some coefs, some rest => some (coefs :: rest)
    | _, _ => none

/-- Embedding of `opt_tempsal_corr(channel, pd, wlngth, tcal, T, PS)`:
per-wavelength temperature/salinity correction
`pd - (T - tcal) * tc - PS * sc` where `(tc, sa, sb)` is the `tscor`
entry for the wavelength and `sc` is `sb` for channel `"a"`,
`sa` for channel `"c"`. -/
def opt_tempsal_corr (tscor : ℚ → Option (ℚ × ℚ × ℚ)) (channel : String)
    (pd wlngth : List ℚ) (tcal T PS : ℚ) : Except String (List ℚ) :=
  if pd.length ≠ wlngth.length then
    .error "pd and wavelength arrays must be the same length"
  else
    match lookupAll tscor wlngth with
    | none => .error "KeyError: wavelength not found in tscor table"
    | some np_tscor =>
      let dT := T - tcal
      if channel = "a" then
        .ok (List.zipWith (fun p cf => p - dT * cf.1 - PS * cf.2.2) pd np_tscor)
      else if channel = "c" then
        .ok (List.zipWith (fun p cf => p - dT * cf.1 - PS * cf.2.1) pd np_tscor)
      else
        .error "Channel must be either \"a\" or \"c\""

/-- Index of the first minimum of a list (numpy `argmin` semantics:
ties resolve to the earliest index; `0` on the empty list). -/
def argminIdx : List ℚ → ℕ
  | [] => 0
  | [_] => 0
  | a :: b :: rest =>
    let j := argminIdx (b :: rest)
    if a ≤ (b :: rest).getD j 0 then 0 else j + 1

/-- One-dimensional linear interpolation with the semantics of
`np.interp(x, xp, fp)` for an increasing grid `xp`: clamped to `fp`'s
first/last values outside the grid, linear on each segment. -/
def interp1 : List ℚ → List ℚ → ℚ → ℚ
  | [], _, _ => 0
  | _ :: _, [], _ => 0
  | [_], f0 :: _, _ => f0
  | _ :: _ :: _, [_], _ => 0
  | x0 :: x1 :: xs, f0 :: f1 :: fs, x =>
    if x < x0 then f0
    else if x ≤ x1 then f0 + (x - x0) * (f1 - f0) / (x1 - x0)
    else interp1 (x1 :: xs) (f1 :: fs) x

/-- `ref_scatter_leakage_min = 0.02` in `opt_scatter_corr`. -/
def ref_scatter_leakage_min : ℚ := 0.02

/-- Embedding of `opt_scatter_corr(apd_ts, awlngth, cpd_ts, cwlngth, rwlngth)`:
reference index = `argmin |awlngth - rwlngth|`, attenuation interpolated
onto the absorption grid, guarded scattering ratio, and
`apd_ts - scat_ratio * (cintrp - apd_ts)`. -/
def opt_scatter_corr (apd_ts awlngth cpd_ts cwlngth : List ℚ)
    (rwlngth : ℚ) : Except String (List ℚ) :=
  if apd_ts.length ≠ awlngth.length then
    .error "Absorption and absorption wavelength arrays must be the same length"
  else if cpd_ts.length ≠ cwlngth.length then
    .error "Attenuation and attenuation wavelength arrays must be the same length"
  else
    let idx := argminIdx (awlngth.map (fun w => |w - rwlngth|))
    let aref := apd_ts.getD idx 0
    let cintrp := awlngth.map (fun x => interp1 cwlngth cpd_ts x)
    let cref := cintrp.getD idx 0
    let scat_ratio : ℚ :=
      if aref ≤ 0 then 0
      else if cref - aref ≤ ref_scatter_leakage_min then 0
      else aref / (cref - aref)
    .ok (List.zipWith (fun a cv => a - scat_ratio * (cv - a)) apd_ts cintrp)

/-- Embedding of `opt_ocr507_irradiance(counts, offset, scale, immersion_factor)`:
requires seven wavelength-channel columns and identical shapes, then
computes `Ed = (counts - offset) * scale * immersion_factor` elementwise. -/
def opt_ocr507_irradiance (counts offset scale immersion_factor : List (List ℚ)) :
    Except String (List (List ℚ)) :=
  let lFlag1 := (counts.headD []).length ≠ 7
  let lFlag2 := ¬ (counts.map List.length = offset.map List.length ∧
                   counts.map List.length = scale.map List.length ∧
                   counts.map List.length = immersion_factor.map List.length)
  if lFlag1 ∨ lFlag2 then
    .error "counts, offset, scale, and immersion arrays must have the same shape and have 7 columns"
  else
    .ok (List.zipWith
      (fun pr qr => List.zipWith (fun a b => a * b)
        (List.zipWith (fun a b => a * b)
          (List.zipWith (fun a b => a - b) pr.1 pr.2) qr.1) qr.2)
      (counts.zip offset) (scale.zip immersion_factor))

/-! ### Helper lemmas -/

/-- Elementwise access to `zipWith` when the index is inside both lists. -/
theorem getD_zipWith {α β γ : Type} (f : α → β → γ) (da : α) (db : β) (dc : γ) :
    ∀ (l1 : List α) (l2 : List β) (k : ℕ), k < l1.length → k < l2.length →
      (List.zipWith f l1 l2).getD k dc = f (l1.getD k da) (l2.getD k db)
  | [], _, k, h1, _ => by simp at h1
  | _ :: _, [], k, _, h2 => by simp at h2
  | a :: l1, b :: l2, 0, _, _ => by simp
  | a :: l1, b :: l2, k + 1, h1, h2 => by
    simpa using getD_zipWith f da db dc l1 l2 k (by simpa using h1) (by simpa using h2)

/-- Elementwise access to `map` when the index is inside the list. -/
theorem getD_map {α β : Type} (f : α → β) (da : α) (db : β) :
    ∀ (l : List α) (k : ℕ), k < l.length →
      (l.map f).getD k db = f (l.getD k da)
  | [], k, h => by simp at h
  | a :: l, 0, _ => by simp
  | a :: l, k + 1, h => by
    simpa using getD_map f da db l k (by simpa using h)

/-- `getD_zipWith` specialised to rational entries and default `0`. -/
theorem getD_zipWith0 (f : ℚ → ℚ → ℚ) (l1 l2 : List ℚ) (k : ℕ)
    (h1 : k < l1.length) (h2 : k < l2.length) :
    (List.zipWith f l1 l2).getD k 0 = f (l1.getD k 0) (l2.getD k 0) :=
  getD_zipWith f 0 0 0 l1 l2 k h1 h2

/-- `getD_map` specialised to rational entries and default `0`. -/
theorem getD_map0 (f : ℚ → ℚ) (l : List ℚ) (k : ℕ) (h : k < l.length) :
    (l.map f).getD k 0 = f (l.getD k 0) :=
  getD_map f 0 0 l k h

/-- `getD_map` specialised to mapping rows of a rational matrix. -/
theorem getD_mapRow (f : List ℚ → ℚ) (l : List (List ℚ)) (k : ℕ)
    (h : k < l.length) :
    (l.map f).getD k 0 = f (l.getD k []) :=
  getD_map f [] 0 l k h

/-- In a `<`-sorted list of naturals every member is at most the last element. -/
theorem le_of_getLast?_pairwise :
    ∀ (l : List ℕ), l.Pairwise (· < ·) → ∀ m, l.getLast? = some m →
      ∀ a, a ∈ l → a ≤ m
  | [], _, m, hm, _, ha => by simp at hm
  | [x], _, m, hm, a, ha => by
    simp at hm ha
    omega
  | x :: y :: ys, hp, m, hm, a, ha => by
    rw [List.getLast?_cons_cons] at hm
    rcases List.mem_cons.mp ha with rfl | ha2
    · have hmem : m ∈ y :: ys := List.mem_of_getLast?_eq_some hm
      have : a < m := (List.pairwise_cons.mp hp).1 m hmem
      omega
    · exact le_of_getLast?_pairwise (y :: ys) (List.pairwise_cons.mp hp).2 m hm a ha2

/-- In a `<`-sorted list of naturals the head is at most every member. -/
theorem head?_le_of_pairwise (l : List ℕ) (hp : l.Pairwise (· < ·)) (m : ℕ)
    (hm : l.head? = some m) : ∀ a, a ∈ l → m ≤ a := by
  cases l with
  | nil => simp at hm
  | cons x xs =>
    simp at hm
    subst hm
    intro a ha
    rcases List.mem_cons.mp ha with rfl | ha2
    · exact le_refl a
    · exact Nat.le_of_lt ((List.pairwise_cons.mp hp).1 a ha2)

/-- `lowerBracket` succeeds exactly when some bin lies strictly below `t`. -/
theorem lowerBracket_isSome_iff (tbins : List ℚ) (t : ℚ) :
    (lowerBracket tbins t).isSome ↔ ∃ i, i < tbins.length ∧ tbins.getD i 0 < t := by
  rw [lowerBracket, List.getLast?_isSome, Ne, List.filter_eq_nil_iff]
  push_neg
  constructor
  · rintro ⟨i, hi, hp⟩
    exact ⟨i, List.mem_range.mp hi, by simpa [sub_neg] using hp⟩
  · rintro ⟨i, hi, hp⟩
    exact ⟨i, List.mem_range.mpr hi, by simpa [sub_neg] using hp⟩

/-- `upperBracket` succeeds exactly when some bin lies strictly above `t`. -/
theorem upperBracket_isSome_iff (tbins : List ℚ) (t : ℚ) :
    (upperBracket tbins t).isSome ↔ ∃ i, i < tbins.length ∧ t < tbins.getD i 0 := by
  rw [upperBracket, List.head?_isSome, Ne, List.filter_eq_nil_iff]
  push_neg
  constructor
  · rintro ⟨i, hi, hp⟩
    exact ⟨i, List.mem_range.mp hi, by simpa [sub_neg] using hp⟩
  · rintro ⟨i, hi, hp⟩
    exact ⟨i, List.mem_range.mpr hi, by simpa [sub_neg] using hp⟩

/-- The index returned by `lowerBracket` is the greatest index whose bin
lies strictly below `t`. -/
theorem lowerBracket_spec (tbins : List ℚ) (t : ℚ) (i : ℕ)
    (h : lowerBracket tbins t = some i) :
    i < tbins.length ∧ tbins.getD i 0 < t ∧
      ∀ k, k < tbins.length → tbins.getD k 0 < t → k ≤ i := by
  rw [lowerBracket] at h
  have hmem := List.mem_of_getLast?_eq_some h
  have hpair := (List.pairwise_lt_range tbins.length).filter
    (fun k => decide (tbins.getD k 0 - t < 0))
  rw [List.mem_filter, List.mem_range] at hmem
  refine ⟨hmem.1, by have := hmem.2; simp only [decide_eq_true_eq, sub_neg] at this; exact this, ?_⟩
  intro k hk hkt
  have hkmem : k ∈ (List.range tbins.length).filter
      (fun j => decide (tbins.getD j 0 - t < 0)) := by
    rw [List.mem_filter, List.mem_range]
    exact ⟨hk, by simp only [decide_eq_true_eq, sub_neg]; exact hkt⟩
  exact le_of_getLast?_pairwise _ hpair i h k hkmem

/-- The index returned by `upperBracket` is the least index whose bin
lies strictly above `t`. -/
theorem upperBracket_spec (tbins : List ℚ) (t : ℚ) (j : ℕ)
    (h : upperBracket tbins t = some j) :
    j < tbins.length ∧ t < tbins.getD j 0 ∧
      ∀ k, k < tbins.length → t < tbins.getD k 0 → j ≤ k := by
  rw [upperBracket] at h
  have hmem : j ∈ (List.range tbins.length).filter
      (fun k => decide (t - tbins.getD k 0 < 0)) :=
    List.mem_of_mem_head? (by rw [h]; exact Option.mem_some_iff.mpr rfl)
  have hpair := (List.pairwise_lt_range tbins.length).filter
    (fun k => decide (t - tbins.getD k 0 < 0))
  rw [List.mem_filter, List.mem_range] at hmem
  refine ⟨hmem.1, by have := hmem.2; simp only [decide_eq_true_eq, sub_neg] at this; exact this, ?_⟩
  intro k hk hkt
  have hkmem : k ∈ (List.range tbins.length).filter
      (fun i => decide (t - tbins.getD i 0 < 0)) := by
    rw [List.mem_filter, List.mem_range]
    exact ⟨hk, by simp only [decide_eq_true_eq, sub_neg]; exact hkt⟩
  exact head?_le_of_pairwise _ hpair j h k hkmem

/-- Shared success characterisation: with all four shape conditions
satisfied, `opt_pd_calc` succeeds exactly when both temperature-bin
bracket searches succeed. -/
theorem opt_pd_calc_ok_iff (log : ℚ → ℚ) (ref sig offset : List ℚ) (tintrn : ℚ)
    (tbins : List ℚ) (tarray : List (List ℚ))
    (h1 : ref.length = sig.length) (h2 : offset.length = sig.length)
    (h3 : tarray.length = sig.length)
    (h4 : (tarray.headD []).length = tbins.length) :
    (∃ v, opt_pd_calc log ref sig offset tintrn tbins tarray = .ok v) ↔
      ((lowerBracket tbins tintrn).isSome ∧ (upperBracket tbins tintrn).isSome) := by
  rw [opt_pd_calc]
  simp only [h1, h2, h3, h4, ne_eq, not_true_eq_false, if_false, ite_false]
  rcases hl : lowerBracket tbins tintrn with _ | i1 <;>
    rcases hu : upperBracket tbins tintrn with _ | i2 <;>
      simp [hl, hu]

/-- `msg` names the count `n`: the decimal representation of `n` occurs
contiguously in `msg`. -/
def mentions (msg : String) (n : ℕ) : Prop :=
  ∃ pre post : List Char, msg.data = pre ++ (toString n).data ++ post

/-- The offset-mismatch message names both counts. -/
theorem offsetErrorString_mentions (o n : ℕ) :
    mentions (offsetErrorString o n) o ∧ mentions (offsetErrorString o n) n := by
  constructor
  · exact ⟨"The number of calibration offset channels (".data,
      ") from the cal devfile must match the number of Signal and Reference channels (".data ++
        (toString n).data ++ ") from the rawdata.".data,
      by simp [offsetErrorString]⟩
  · exact ⟨"The number of calibration offset channels (".data ++ (toString o).data ++
        ") from the cal devfile must match the number of Signal and Reference channels (".data,
      ") from the rawdata.".data,
      by simp [offsetErrorString]⟩

/-- The table-row-mismatch message names both counts. -/
theorem rErrorString_mentions (r n : ℕ) :
    mentions (rErrorString r n) r ∧ mentions (rErrorString r n) n := by
  constructor
  · exact ⟨"The number of rows in the internal temperature compensation calibration array (".data,
      ") must match the number of wavelength channels in the rawdata (".data ++
        (toString n).data ++ ").".data,
      by simp [rErrorString]⟩
  · exact ⟨"The number of rows in the internal temperature compensation calibration array (".data ++
        (toString r).data ++
        ") must match the number of wavelength channels in the rawdata (".data,
      ").".data,
      by simp [rErrorString]⟩

/-- The table-column-mismatch message names both counts. -/
theorem cErrorString_mentions (c t : ℕ) :
    mentions (cErrorString c t) c ∧ mentions (cErrorString c t) t := by
  constructor
  · exact ⟨"Number of columns in the internal temperature compensation calibration array (".data,
      ") must match the number of internal temp comp cal bin values = (".data ++
        (toString t).data ++ ").".data,
      by simp [cErrorString]⟩
  · exact ⟨"Number of columns in the internal temperature compensation calibration array (".data ++
        (toString c).data ++
        ") must match the number of internal temp comp cal bin values = (".data,
      ").".data,
      by simp [cErrorString]⟩

/-! ### Claim theorems -/

/-- C1: for every call to `opt_pd_calc` whose inputs satisfy the shape
contract and whose internal temperature lies strictly inside the bin grid,
the returned pair is `(pd, deltaT)` where, per wavelength channel,
`deltaT = dT0 + ((tintrn - T0)/(T1 - T0)) * (dT1 - dT0)` for the two
bracketing correction-table columns and
`pd = offset - (1/0.25) * log(sig/ref) - deltaT`; both the coefficient
and the interpolated correction are returned. -/
theorem opt_pd_calc_correct (log : ℚ → ℚ) (ref sig offset : List ℚ) (tintrn : ℚ)
    (tbins : List ℚ) (tarray : List (List ℚ))
    (h1 : ref.length = sig.length) (h2 : offset.length = sig.length)
    (h3 : tarray.length = sig.length)
    (h4 : (tarray.headD []).length = tbins.length)
    (hlo : ∃ b0, tbins.head? = some b0 ∧ b0 < tintrn)
    (hhi : ∃ bn, tbins.getLast? = some bn ∧ tintrn < bn) :
    ∃ i1 i2, lowerBracket tbins tintrn = some i1 ∧
      upperBracket tbins tintrn = some i2 ∧
      ∃ pd deltaT,
        opt_pd_calc log ref sig offset tintrn tbins tarray = .ok (pd, deltaT) ∧
        pd.length = sig.length ∧ deltaT.length = sig.length ∧
        ∀ k, k < sig.length →
          deltaT.getD k 0 =
            (tarray.getD k []).getD i1 0 +
              ((tintrn - tbins.getD i1 0) /
                (tbins.getD i2 0 - tbins.getD i1 0)) *
                ((tarray.getD k []).getD i2 0 - (tarray.getD k []).getD i1 0) ∧
          pd.getD k 0 =
            offset.getD k 0 -
              (1 / (0.25 : ℚ)) * log (sig.getD k 0 / ref.getD k 0) -
              deltaT.getD k 0 := by
  obtain ⟨b0, hb0, hb0lt⟩ := hlo
  obtain ⟨bn, hbn, hbnlt⟩ := hhi
  have hlS : (lowerBracket tbins tintrn).isSome := by
    rw [lowerBracket_isSome_iff]
    obtain ⟨ys, hys⟩ := List.head?_eq_some_iff.mp hb0
    exact ⟨0, by simp [hys], by simp [hys]; exact hb0lt⟩
  have huS : (upperBracket tbins tintrn).isSome := by
    rw [upperBracket_isSome_iff]
    have hne : tbins ≠ [] := by rintro rfl; simp at hbn
    have hlen : 0 < tbins.length := List.length_pos.mpr hne
    refine ⟨tbins.length - 1, by omega, ?_⟩
    have hv : tbins.getD (tbins.length - 1) 0 = bn := by
      rw [List.getD_eq_getElem?_getD, ← List.getLast?_eq_getElem?, hbn]
      rfl
    rw [hv]
    exact hbnlt
  obtain ⟨i1, hi1⟩ := Option.isSome_iff_exists.mp hlS
  obtain ⟨i2, hi2⟩ := Option.isSome_iff_exists.mp huS
  refine ⟨i1, i2, hi1, hi2, ?_⟩
  rw [opt_pd_calc]
  simp only [h1, h2, h3, h4, ne_eq, not_true_eq_false, if_false, ite_false,
    hi1, hi2]
  refine ⟨_, _, rfl, ?_, ?_, ?_⟩
  · simp [h1, h2, h3]
  · simp [h3]
  · intro k hk
    have hk3 : k < tarray.length := by omega
    have hk1 : k < ref.length := by omega
    have hk2 : k < offset.length := by omega
    constructor
    · simp only [getD_zipWith0, getD_mapRow, List.length_zipWith,
        List.length_map, lt_min_iff, h1, h2, h3, hk, hk1, hk2, hk3, and_self]
    · simp only [getD_zipWith0, getD_mapRow, List.length_zipWith,
        List.length_map, lt_min_iff, h1, h2, h3, hk, hk1, hk2, hk3, and_self]

/-- Witness for C1 at a concrete input. -/
theorem opt_pd_calc_correct_witness :
    ∃ i1 i2, lowerBracket [10, 15, 20, 25] (17 : ℚ) = some i1 ∧
      upperBracket [10, 15, 20, 25] (17 : ℚ) = some i2 ∧
      ∃ pd deltaT,
        opt_pd_calc (fun q => q) [1] [1] [2] 17 [10, 15, 20, 25] [[1, 2, 3, 4]] =
          .ok (pd, deltaT) ∧
        pd.length = ([1] : List ℚ).length ∧ deltaT.length = ([1] : List ℚ).length ∧
        ∀ k, k < ([1] : List ℚ).length →
          deltaT.getD k 0 =
            (([[1, 2, 3, 4]] : List (List ℚ)).getD k []).getD i1 0 +
              (((17 : ℚ) - ([10, 15, 20, 25] : List ℚ).getD i1 0) /
                (([10, 15, 20, 25] : List ℚ).getD i2 0 -
                  ([10, 15, 20, 25] : List ℚ).getD i1 0)) *
                ((([[1, 2, 3, 4]] : List (List ℚ)).getD k []).getD i2 0 -
                  (([[1, 2, 3, 4]] : List (List ℚ)).getD k []).getD i1 0) ∧
          pd.getD k 0 =
            ([2] : List ℚ).getD k 0 -
              (1 / (0.25 : ℚ)) *
                (fun q => q) (([1] : List ℚ).getD k 0 / ([1] : List ℚ).getD k 0) -
              deltaT.getD k 0 :=
  opt_pd_calc_correct (fun q => q) [1] [1] [2] 17 [10, 15, 20, 25] [[1, 2, 3, 4]]
    rfl rfl rfl (by decide) ⟨10, rfl, by decide⟩ ⟨25, by decide, by decide⟩

/-- C2 counterexample: with the ascending bin grid `[10, 15, 20, 25]` and
internal temperature exactly equal to the interior bin value `15`, the
upper bracketing bin chosen by the code is `20` (index 2), not the equal
bin `15` (index 1) claimed by the spec; correspondingly `opt_pd_calc`
interpolates between the columns of bins `10` and `20`, yielding
`deltaT = [1/2]` instead of the `[100]` the claimed bracketing would give. -/
theorem upperBracket_at_bin_cex :
    upperBracket [10, 15, 20, 25] (15 : ℚ) = some 2 ∧
    ¬ upperBracket [10, 15, 20, 25] (15 : ℚ) = some 1 ∧
    ([10, 15, 20, 25] : List ℚ).getD 2 0 = 20 ∧
    opt_pd_calc (fun _ => 0) [1] [1] [0] 15 [10, 15, 20, 25] [[0, 100, 1, 7]] =
      .ok ([-(1 / 2)], [1 / 2]) := by
  refine ⟨?_, ?_, by norm_num, ?_⟩
  · norm_num [upperBracket, List.range_succ, List.filter]
  · norm_num [upperBracket, List.range_succ, List.filter]
  · norm_num [opt_pd_calc, lowerBracket, upperBracket, List.range_succ,
      List.filter]

/-- C2 (amended): `opt_pd_calc` selects as lower bracket the bin at the
greatest index whose value is strictly below the internal temperature and
as upper bracket the bin at the least index whose value is strictly above
it (both comparisons strict); for an ascending grid these are the largest
bin strictly below and the smallest bin strictly above; a bin exactly
equal to the internal temperature is skipped by both searches. -/
theorem bracket_selection (tbins : List ℚ) (t : ℚ) :
    (∀ i, lowerBracket tbins t = some i →
      i < tbins.length ∧ tbins.getD i 0 < t ∧
        ∀ k, k < tbins.length → tbins.getD k 0 < t → k ≤ i) ∧
    (∀ j, upperBracket tbins t = some j →
      j < tbins.length ∧ t < tbins.getD j 0 ∧
        ∀ k, k < tbins.length → t < tbins.getD k 0 → j ≤ k) :=
  ⟨fun i h => lowerBracket_spec tbins t i h,
   fun j h => upperBracket_spec tbins t j h⟩

/-- Witness for C2's amended theorem at a concrete input. -/
theorem bracket_selection_witness :
    (1 < ([10, 15, 20, 25] : List ℚ).length ∧
      ([10, 15, 20, 25] : List ℚ).getD 1 0 < 17 ∧
      ∀ k, k < ([10, 15, 20, 25] : List ℚ).length →
        ([10, 15, 20, 25] : List ℚ).getD k 0 < 17 → k ≤ 1) ∧
    (2 < ([10, 15, 20, 25] : List ℚ).length ∧
      (17 : ℚ) < ([10, 15, 20, 25] : List ℚ).getD 2 0 ∧
      ∀ k, k < ([10, 15, 20, 25] : List ℚ).length →
        (17 : ℚ) < ([10, 15, 20, 25] : List ℚ).getD k 0 → 2 ≤ k) :=
  ⟨(bracket_selection [10, 15, 20, 25] 17).1 1
     (by norm_num [lowerBracket, List.range_succ, List.filter]),
   (bracket_selection [10, 15, 20, 25] 17).2 2
     (by norm_num [upperBracket, List.range_succ, List.filter])⟩

/-- On the grid `[10, 15, 20, 25]` the lower bracket search succeeds
exactly for temperatures above `10`. -/
theorem lowerBracket_grid_iff (t : ℚ) :
    (lowerBracket [10, 15, 20, 25] t).isSome ↔ 10 < t := by
  rw [lowerBracket_isSome_iff]
  constructor
  · rintro ⟨i, hi, hv⟩
    simp only [List.length_cons, List.length_nil] at hi
    interval_cases i <;> (norm_num at hv; linarith)
  · intro h10
    exact ⟨0, by norm_num, by simpa using h10⟩

/-- On the grid `[10, 15, 20, 25]` the upper bracket search succeeds
exactly for temperatures below `25`. -/
theorem upperBracket_grid_iff (t : ℚ) :
    (upperBracket [10, 15, 20, 25] t).isSome ↔ t < 25 := by
  rw [upperBracket_isSome_iff]
  constructor
  · rintro ⟨i, hi, hv⟩
    simp only [List.length_cons, List.length_nil] at hi
    interval_cases i <;> (norm_num at hv; linarith)
  · intro h25
    exact ⟨3, by norm_num, by simpa using h25⟩

/-- C3: with the bin grid `[10, 15, 20, 25]` and valid shapes,
`opt_pd_calc` succeeds exactly when the internal temperature is strictly
inside the grid (so temperatures `5` and `30` fail and `17` succeeds),
and at `17` the bracketing bins are `15` (index 1) and `20` (index 2),
between which the correction is interpolated. -/
theorem opt_pd_calc_bin_range (log : ℚ → ℚ) (ref sig offset : List ℚ)
    (tarray : List (List ℚ)) (t : ℚ)
    (h1 : ref.length = sig.length) (h2 : offset.length = sig.length)
    (h3 : tarray.length = sig.length)
    (h4 : (tarray.headD []).length = 4) :
    ((∃ v, opt_pd_calc log ref sig offset t [10, 15, 20, 25] tarray = .ok v) ↔
      (10 < t ∧ t < 25)) ∧
    lowerBracket [10, 15, 20, 25] (17 : ℚ) = some 1 ∧
    upperBracket [10, 15, 20, 25] (17 : ℚ) = some 2 ∧
    ([10, 15, 20, 25] : List ℚ).getD 1 0 = 15 ∧
    ([10, 15, 20, 25] : List ℚ).getD 2 0 = 20 := by
  refine ⟨?_, ?_, ?_, by norm_num, by norm_num⟩
  · rw [opt_pd_calc_ok_iff log ref sig offset t _ tarray h1 h2 h3
      (by simpa using h4)]
    rw [lowerBracket_grid_iff, upperBracket_grid_iff]
  · norm_num [lowerBracket, List.range_succ, List.filter]
  · norm_num [upperBracket, List.range_succ, List.filter]

/-- Witness for C3 at a concrete input. -/
theorem opt_pd_calc_bin_range_witness :
    ((∃ v, opt_pd_calc (fun q => q) [1] [1] [1] 17 [10, 15, 20, 25] [[1, 2, 3, 4]] =
        .ok v) ↔ ((10 : ℚ) < 17 ∧ (17 : ℚ) < 25)) ∧
    lowerBracket [10, 15, 20, 25] (17 : ℚ) = some 1 ∧
    upperBracket [10, 15, 20, 25] (17 : ℚ) = some 2 ∧
    ([10, 15, 20, 25] : List ℚ).getD 1 0 = 15 ∧
    ([10, 15, 20, 25] : List ℚ).getD 2 0 = 20 :=
  opt_pd_calc_bin_range (fun q => q) [1] [1] [1] [[1, 2, 3, 4]] 17
    rfl rfl rfl (by norm_num)

/-- C4 counterexample: a reference of length 4 against a signal of length
3 fails with the fixed message "Reference and Signal arrays must be the
same length", which names neither length (it contains no digits at all);
moreover an input satisfying all four shape conditions can still raise an
error (internal temperature 5 outside the grid), so errors are not
equivalent to shape violations. -/
theorem opt_pd_calc_shape_error_cex :
    opt_pd_calc (fun _ => 0) [1, 1, 1, 1] [1, 1, 1] [1, 1, 1] 17 [10, 15, 20, 25]
        [[0, 0, 0, 0], [0, 0, 0, 0], [0, 0, 0, 0]] =
      .error "Reference and Signal arrays must be the same length" ∧
    ¬ mentions "Reference and Signal arrays must be the same length" 4 ∧
    ¬ mentions "Reference and Signal arrays must be the same length" 3 ∧
    opt_pd_calc (fun _ => 0) [1] [1] [1] 5 [10, 15, 20, 25] [[0, 0, 0, 0]] =
      .error "IndexError: temperature bracketing index out of bounds" := by
  refine ⟨rfl, ?_, ?_, ?_⟩
  · rintro ⟨pre, post, h⟩
    have h4 : '4' ∈ "Reference and Signal arrays must be the same length".data := by
      rw [h]
      simp
      exact Or.inr (Or.inl (by decide))
    revert h4
    decide
  · rintro ⟨pre, post, h⟩
    have h3 : '3' ∈ "Reference and Signal arrays must be the same length".data := by
      rw [h]
      simp
      exact Or.inr (Or.inl (by decide))
    revert h3
    decide
  · norm_num [opt_pd_calc, lowerBracket, upperBracket, List.range_succ,
      List.filter]

/-- C4 (amended): `opt_pd_calc` raises an error exactly when one of the
four shape conditions is violated or the internal temperature is not
strictly bracketed by the bin grid; the offset and correction-table
errors name the mismatched counts, while the reference/signal mismatch
raises a fixed length-mismatch message that names neither length. -/
theorem opt_pd_calc_error_characterization (log : ℚ → ℚ)
    (ref sig offset : List ℚ) (tintrn : ℚ) (tbins : List ℚ)
    (tarray : List (List ℚ)) :
    ((∃ e, opt_pd_calc log ref sig offset tintrn tbins tarray = .error e) ↔
      (ref.length ≠ sig.length ∨ offset.length ≠ sig.length ∨
       tarray.length ≠ sig.length ∨ (tarray.headD []).length ≠ tbins.length ∨
       ¬ ((lowerBracket tbins tintrn).isSome ∧
          (upperBracket tbins tintrn).isSome))) ∧
    (ref.length ≠ sig.length →
      opt_pd_calc log ref sig offset tintrn tbins tarray =
        .error "Reference and Signal arrays must be the same length") ∧
    (ref.length = sig.length → offset.length ≠ sig.length →
      opt_pd_calc log ref sig offset tintrn tbins tarray =
        .error (offsetErrorString offset.length sig.length) ∧
      mentions (offsetErrorString offset.length sig.length) offset.length ∧
      mentions (offsetErrorString offset.length sig.length) sig.length) ∧
    (ref.length = sig.length → offset.length = sig.length →
      tarray.length ≠ sig.length →
      opt_pd_calc log ref sig offset tintrn tbins tarray =
        .error (rErrorString tarray.length sig.length) ∧
      mentions (rErrorString tarray.length sig.length) tarray.length ∧
      mentions (rErrorString tarray.length sig.length) sig.length) ∧
    (ref.length = sig.length → offset.length = sig.length →
      tarray.length = sig.length →
      (tarray.headD []).length ≠ tbins.length →
      opt_pd_calc log ref sig offset tintrn tbins tarray =
        .error (cErrorString (tarray.headD []).length tbins.length) ∧
      mentions (cErrorString (tarray.headD []).length tbins.length)
        (tarray.headD []).length ∧
      mentions (cErrorString (tarray.headD []).length tbins.length)
        tbins.length) := by
  refine ⟨?_, ?_, ?_, ?_, ?_⟩
  · simp only [opt_pd_calc]
    split_ifs with g1 g2 g3 g4
    · simp [g1]
    · simp [g1, g2]
    · simp [g1, g2, g3]
    · rw [List.headD_eq_head?_getD] at g4
      simp [g1, g2, g3, g4]
    · rw [List.headD_eq_head?_getD] at g4
      rcases hl : lowerBracket tbins tintrn with _ | i1 <;>
        rcases hu : upperBracket tbins tintrn with _ | i2 <;>
          simp [hl, hu, g1, g2, g3, g4]
  · intro g1
    simp [opt_pd_calc, g1]
  · intro e1 g2
    exact ⟨by simp [opt_pd_calc, e1, g2],
      (offsetErrorString_mentions offset.length sig.length).1,
      (offsetErrorString_mentions offset.length sig.length).2⟩
  · intro e1 e2 g3
    exact ⟨by simp [opt_pd_calc, e1, e2, g3],
      (rErrorString_mentions tarray.length sig.length).1,
      (rErrorString_mentions tarray.length sig.length).2⟩
  · intro e1 e2 e3 g4
    refine ⟨?_,
      (cErrorString_mentions (tarray.headD []).length tbins.length).1,
      (cErrorString_mentions (tarray.headD []).length tbins.length).2⟩
    rw [List.headD_eq_head?_getD] at g4
    simp [opt_pd_calc, e1, e2, e3, g4]

/-- Witness for C4's amended theorem at a concrete input: an offset of
length 1 against signal/reference length 2 produces the offset-mismatch
error naming both counts. -/
theorem opt_pd_calc_error_characterization_witness :
    opt_pd_calc (fun q => q) [1, 2] [3, 4] [5] 17 [10, 20] [[1, 2], [3, 4]] =
      .error (offsetErrorString ([5] : List ℚ).length ([3, 4] : List ℚ).length) ∧
    mentions (offsetErrorString ([5] : List ℚ).length ([3, 4] : List ℚ).length)
      ([5] : List ℚ).length ∧
    mentions (offsetErrorString ([5] : List ℚ).length ([3, 4] : List ℚ).length)
      ([3, 4] : List ℚ).length :=
  (opt_pd_calc_error_characterization (fun q => q) [1, 2] [3, 4] [5] 17
    [10, 20] [[1, 2], [3, 4]]).2.2.1 rfl (by decide)

/-- `lookupAll` succeeds exactly when every wavelength is in the table. -/
theorem lookupAll_isSome_iff (tscor : ℚ → Option (ℚ × ℚ × ℚ)) (ws : List ℚ) :
    (lookupAll tscor ws).isSome ↔ ∀ w ∈ ws, (tscor w).isSome := by
  induction ws with
  | nil => simp [lookupAll]
  | cons w ws ih =>
    rcases h : tscor w with _ | c <;> rcases h2 : lookupAll tscor ws with _ | cs <;>
      rw [h2] at ih <;> simp [lookupAll, h, h2, ← ih]

/-- `lookupAll` fails exactly when some wavelength is missing from the table. -/
theorem lookupAll_eq_none_iff (tscor : ℚ → Option (ℚ × ℚ × ℚ)) (ws : List ℚ) :
    lookupAll tscor ws = none ↔ ∃ w ∈ ws, tscor w = none := by
  rw [← Option.not_isSome_iff_eq_none, lookupAll_isSome_iff]
  push_neg
  simp [Option.not_isSome_iff_eq_none]

/-- Elementwise description of a successful `lookupAll`. -/
theorem lookupAll_getD (tscor : ℚ → Option (ℚ × ℚ × ℚ)) :
    ∀ (ws : List ℚ) (cs : List (ℚ × ℚ × ℚ)), lookupAll tscor ws = some cs →
      cs.length = ws.length ∧
        ∀ k, k < ws.length → tscor (ws.getD k 0) = some (cs.getD k (0, 0, 0))
  | [], cs, h => by
    simp [lookupAll] at h
    simp [← h]
  | w :: ws, cs, h => by
    rw [lookupAll] at h
    rcases hw : tscor w with _ | c <;> rw [hw] at h
    · simp at h
    · rcases h2 : lookupAll tscor ws with _ | rest <;> rw [h2] at h
      · simp at h
      · simp at h
        obtain ⟨hlen, hval⟩ := lookupAll_getD tscor ws rest h2
        subst h
        refine ⟨by simp [hlen], ?_⟩
        intro k hk
        cases k with
        | zero => simpa using hw
        | succ k => simpa using hval k (by simpa using hk)

/-- C5: for every call to `opt_tempsal_corr` with equal-length coefficient
and wavelength arrays, a recognized channel tag, and every wavelength
present in the correction table, the result is, per wavelength,
`corrected = uncorrected - (T - tcal) * temp_coef - PS * sal_coef`, where
`sal_coef` is the absorption entry for channel `"a"` and the attenuation
entry for channel `"c"`. -/
theorem opt_tempsal_corr_correct (tscor : ℚ → Option (ℚ × ℚ × ℚ))
    (channel : String) (pd wlngth : List ℚ) (tcal T PS : ℚ)
    (hlen : pd.length = wlngth.length)
    (hch : channel = "a" ∨ channel = "c")
    (htab : ∀ w ∈ wlngth, (tscor w).isSome) :
    ∃ out, opt_tempsal_corr tscor channel pd wlngth tcal T PS = .ok out ∧
      out.length = pd.length ∧
      ∀ k, k < pd.length → ∀ tc sa sb,
        tscor (wlngth.getD k 0) = some (tc, sa, sb) →
        out.getD k 0 = pd.getD k 0 - (T - tcal) * tc -
          PS * (if channel = "a" then sb else sa) := by
  have hS : (lookupAll tscor wlngth).isSome :=
    (lookupAll_isSome_iff tscor wlngth).mpr htab
  obtain ⟨cs, hcs⟩ := Option.isSome_iff_exists.mp hS
  obtain ⟨hlen2, hval⟩ := lookupAll_getD tscor wlngth cs hcs
  rcases hch with rfl | rfl
  · refine ⟨List.zipWith (fun p cf => p - (T - tcal) * cf.1 - PS * cf.2.2) pd cs,
      by simp [opt_tempsal_corr, hlen, hcs], ?_, ?_⟩
    · simp [hlen, hlen2]
    · intro k hk tc sa sb htsc
      have hv := hval k (by omega)
      rw [htsc] at hv
      have hcsk : cs.getD k (0, 0, 0) = (tc, sa, sb) :=
        (Option.some_inj.mp hv).symm
      rw [getD_zipWith _ 0 (0, 0, 0) 0 pd cs k hk (by omega), hcsk]
      simp
  · refine ⟨List.zipWith (fun p cf => p - (T - tcal) * cf.1 - PS * cf.2.1) pd cs,
      by simp [opt_tempsal_corr, hlen, hcs], ?_, ?_⟩
    · simp [hlen, hlen2]
    · intro k hk tc sa sb htsc
      have hv := hval k (by omega)
      rw [htsc] at hv
      have hcsk : cs.getD k (0, 0, 0) = (tc, sa, sb) :=
        (Option.some_inj.mp hv).symm
      rw [getD_zipWith _ 0 (0, 0, 0) 0 pd cs k hk (by omega), hcsk]
      simp

/-- Witness for C5 at a concrete input. -/
theorem opt_tempsal_corr_correct_witness :
    ∃ out, opt_tempsal_corr (fun _ => some (1, 2, 3)) "a" [10] [715] 20 25 2 =
        .ok out ∧
      out.length = ([10] : List ℚ).length ∧
      ∀ k, k < ([10] : List ℚ).length → ∀ tc sa sb,
        (fun (_ : ℚ) => some ((1 : ℚ), (2 : ℚ), (3 : ℚ)))
            (([715] : List ℚ).getD k 0) = some (tc, sa, sb) →
        out.getD k 0 = ([10] : List ℚ).getD k 0 - ((25 : ℚ) - 20) * tc -
          2 * (if ("a" : String) = "a" then sb else sa) :=
  opt_tempsal_corr_correct (fun _ => some (1, 2, 3)) "a" [10] [715] 20 25 2
    rfl (Or.inl rfl) (by simp)

/-- C6: `opt_tempsal_corr` fails exactly when the coefficient and
wavelength lengths differ, some wavelength is missing from the table, or
the channel tag is neither `"a"` nor `"c"`; with valid lengths and
wavelengths, an unrecognized tag yields the invalid-channel error. -/
theorem opt_tempsal_corr_error_iff (tscor : ℚ → Option (ℚ × ℚ × ℚ))
    (channel : String) (pd wlngth : List ℚ) (tcal T PS : ℚ) :
    ((∃ e, opt_tempsal_corr tscor channel pd wlngth tcal T PS = .error e) ↔
      (pd.length ≠ wlngth.length ∨ (∃ w ∈ wlngth, tscor w = none) ∨
       (channel ≠ "a" ∧ channel ≠ "c"))) ∧
    (pd.length = wlngth.length → (∀ w ∈ wlngth, (tscor w).isSome) →
      channel ≠ "a" → channel ≠ "c" →
      opt_tempsal_corr tscor channel pd wlngth tcal T PS =
        .error "Channel must be either \"a\" or \"c\"") := by
  constructor
  · simp only [opt_tempsal_corr]
    split_ifs with g1 ga gc
    · simp [g1]
    · rcases h2 : lookupAll tscor wlngth with _ | cs
      · rw [lookupAll_eq_none_iff] at h2
        simp [g1, ga, h2]
      · have h2n : ¬ lookupAll tscor wlngth = none := by simp [h2]
        rw [lookupAll_eq_none_iff] at h2n
        simp [g1, ga, h2, h2n]
    · rcases h2 : lookupAll tscor wlngth with _ | cs
      · rw [lookupAll_eq_none_iff] at h2
        simp [g1, gc, h2]
      · have h2n : ¬ lookupAll tscor wlngth = none := by simp [h2]
        rw [lookupAll_eq_none_iff] at h2n
        simp [g1, gc, h2, h2n]
    · rcases h2 : lookupAll tscor wlngth with _ | cs
      · rw [lookupAll_eq_none_iff] at h2
        simp [h2]
      · simp [g1, ga, gc, h2]
  · intro e1 hall ga gc
    have hS := (lookupAll_isSome_iff tscor wlngth).mpr hall
    obtain ⟨cs, hcs⟩ := Option.isSome_iff_exists.mp hS
    simp [opt_tempsal_corr, e1, hcs, ga, gc]

/-- Witness for C6 at a concrete input: channel tag `"x"` with valid
lengths and wavelengths yields the invalid-channel error. -/
theorem opt_tempsal_corr_error_iff_witness :
    opt_tempsal_corr (fun _ => some (1, 2, 3)) "x" [10] [715] 20 25 2 =
      .error "Channel must be either \"a\" or \"c\"" :=
  (opt_tempsal_corr_error_iff (fun _ => some (1, 2, 3)) "x" [10] [715]
    20 25 2).2 rfl (by simp) (by decide) (by decide)

/-- Zipping with a function that keeps the left entry returns the left
list when it is no longer than the right one. -/
theorem zipWith_id_left : ∀ (l1 l2 : List ℚ), l1.length ≤ l2.length →
    List.zipWith (fun a _ => a) l1 l2 = l1
  | [], _, _ => rfl
  | a :: l1, [], h => by simp at h
  | a :: l1, b :: l2, h => by
    simp [zipWith_id_left l1 l2 (by simpa using h)]

/-- `argminIdx` of a nonempty list is a valid index. -/
theorem argminIdx_lt : ∀ (l : List ℚ), l ≠ [] → argminIdx l < l.length
  | [], h => absurd rfl h
  | [_], _ => by simp [argminIdx]
  | a :: b :: rest, _ => by
    rw [argminIdx]
    split_ifs
    · simp
    · have := argminIdx_lt (b :: rest) (by simp)
      simp only [List.length_cons] at *
      omega

/-- C7: with valid equal-length input pairs, when the absorption value at
the reference index is at most zero or the leakage
`attenuation_ref - absorption_ref` does not exceed the fixed threshold
`ref_scatter_leakage_min = 0.02`, the scattering ratio is forced to zero
and `opt_scatter_corr` returns the absorption input unchanged. -/
theorem opt_scatter_corr_suppressed (apd_ts awlngth cpd_ts cwlngth : List ℚ)
    (rwlngth : ℚ)
    (h1 : apd_ts.length = awlngth.length) (h2 : cpd_ts.length = cwlngth.length)
    (hguard :
      apd_ts.getD (argminIdx (awlngth.map (fun w => |w - rwlngth|))) 0 ≤ 0 ∨
      (awlngth.map (fun x => interp1 cwlngth cpd_ts x)).getD
          (argminIdx (awlngth.map (fun w => |w - rwlngth|))) 0 -
        apd_ts.getD (argminIdx (awlngth.map (fun w => |w - rwlngth|))) 0 ≤
        ref_scatter_leakage_min) :
    opt_scatter_corr apd_ts awlngth cpd_ts cwlngth rwlngth = .ok apd_ts := by
  rw [opt_scatter_corr]
  simp only [h1, h2, ne_eq, not_true_eq_false, if_false, ite_false]
  have hz : (if apd_ts.getD (argminIdx (awlngth.map (fun w => |w - rwlngth|))) 0 ≤ 0
      then (0 : ℚ)
      else if (awlngth.map (fun x => interp1 cwlngth cpd_ts x)).getD
            (argminIdx (awlngth.map (fun w => |w - rwlngth|))) 0 -
          apd_ts.getD (argminIdx (awlngth.map (fun w => |w - rwlngth|))) 0 ≤
          ref_scatter_leakage_min
      then (0 : ℚ)
      else apd_ts.getD (argminIdx (awlngth.map (fun w => |w - rwlngth|))) 0 /
        ((awlngth.map (fun x => interp1 cwlngth cpd_ts x)).getD
            (argminIdx (awlngth.map (fun w => |w - rwlngth|))) 0 -
          apd_ts.getD (argminIdx (awlngth.map (fun w => |w - rwlngth|))) 0)) = 0 := by
    rcases hguard with hg | hg
    · rw [if_pos hg]
    · by_cases ha : apd_ts.getD (argminIdx (awlngth.map (fun w => |w - rwlngth|))) 0 ≤ 0
      · rw [if_pos ha]
      · rw [if_neg ha, if_pos hg]
  rw [hz]
  simp only [zero_mul, sub_zero]
  rw [zipWith_id_left apd_ts _ (by simp [h1])]

/-- Witness for C7 at the spec's example: `absorption_ref = 0.01`,
`attenuation_ref = 0.015`, leakage `0.005 < 0.02`, output unchanged. -/
theorem opt_scatter_corr_suppressed_witness :
    opt_scatter_corr [1 / 100] [715] [15 / 1000] [715] 715 =
      .ok [1 / 100] :=
  opt_scatter_corr_suppressed [1 / 100] [715] [15 / 1000] [715] 715 rfl rfl
    (Or.inr (by norm_num [argminIdx, interp1, ref_scatter_leakage_min]))

/-- C8: with valid equal-length input pairs, `absorption_ref > 0` and
leakage above the threshold, the reference index is the `argmin` of the
distance to the reference wavelength, the attenuation is linearly
interpolated onto the absorption grid, and the output is
`absorption - ratio * (interpolated_attenuation - absorption)` elementwise
with `ratio = absorption_ref / (attenuation_ref - absorption_ref)`. -/
theorem opt_scatter_corr_applied (apd_ts awlngth cpd_ts cwlngth : List ℚ)
    (rwlngth : ℚ) (idx : ℕ) (aref cref : ℚ)
    (hidx : idx = argminIdx (awlngth.map (fun w => |w - rwlngth|)))
    (haref : aref = apd_ts.getD idx 0)
    (hcref : cref = (awlngth.map (fun x => interp1 cwlngth cpd_ts x)).getD idx 0)
    (h1 : apd_ts.length = awlngth.length) (h2 : cpd_ts.length = cwlngth.length)
    (ha : 0 < aref) (hc : ref_scatter_leakage_min < cref - aref) :
    ∃ out, opt_scatter_corr apd_ts awlngth cpd_ts cwlngth rwlngth = .ok out ∧
      out.length = apd_ts.length ∧
      ∀ k, k < apd_ts.length →
        out.getD k 0 = apd_ts.getD k 0 -
          (aref / (cref - aref)) *
            (interp1 cwlngth cpd_ts (awlngth.getD k 0) - apd_ts.getD k 0) := by
  subst hcref
  subst haref
  subst hidx
  rw [opt_scatter_corr]
  simp only [h1, h2, ne_eq, not_true_eq_false, if_false, ite_false]
  rw [if_neg (not_le.mpr ha), if_neg (not_le.mpr hc)]
  refine ⟨_, rfl, ?_, ?_⟩
  · simp [h1]
  · intro k hk
    rw [getD_zipWith0 _ apd_ts _ k (by rw [h1]; exact hk) (by simpa using hk),
      getD_map0 _ awlngth k hk]

/-- Witness for C8 at the spec's example: `absorption_ref = 0.05`,
`attenuation_ref = 0.10`, ratio `1`. -/
theorem opt_scatter_corr_applied_witness :
    ∃ out, opt_scatter_corr [2 / 10, 1 / 20] [400, 715] [3 / 10, 1 / 10]
        [400, 715] 715 = .ok out ∧
      out.length = ([2 / 10, 1 / 20] : List ℚ).length ∧
      ∀ k, k < ([2 / 10, 1 / 20] : List ℚ).length →
        out.getD k 0 = ([2 / 10, 1 / 20] : List ℚ).getD k 0 -
          ((1 / 20 : ℚ) / (1 / 10 - 1 / 20)) *
            (interp1 [400, 715] [3 / 10, 1 / 10]
                (([400, 715] : List ℚ).getD k 0) -
              ([2 / 10, 1 / 20] : List ℚ).getD k 0) :=
  opt_scatter_corr_applied [2 / 10, 1 / 20] [400, 715] [3 / 10, 1 / 10]
    [400, 715] 715 1 (1 / 20) (1 / 10)
    (by norm_num [argminIdx, List.map])
    (by norm_num)
    (by norm_num [interp1, List.map])
    rfl rfl (by norm_num) (by norm_num [ref_scatter_leakage_min])

/-- C10 (implicit): whenever the scattering correction is actually applied
(`absorption_ref > 0` and leakage above the threshold), the corrected
absorption at the reference index is exactly zero:
`absorption_ref - ratio * (attenuation_ref - absorption_ref) = 0`. -/
theorem opt_scatter_corr_ref_index_zero (apd_ts awlngth cpd_ts cwlngth : List ℚ)
    (rwlngth : ℚ) (idx : ℕ) (aref cref : ℚ)
    (hidx : idx = argminIdx (awlngth.map (fun w => |w - rwlngth|)))
    (haref : aref = apd_ts.getD idx 0)
    (hcref : cref = (awlngth.map (fun x => interp1 cwlngth cpd_ts x)).getD idx 0)
    (h1 : apd_ts.length = awlngth.length) (h2 : cpd_ts.length = cwlngth.length)
    (hne : awlngth ≠ [])
    (ha : 0 < aref) (hc : ref_scatter_leakage_min < cref - aref) :
    ∃ out, opt_scatter_corr apd_ts awlngth cpd_ts cwlngth rwlngth = .ok out ∧
      out.getD idx 0 = aref - (aref / (cref - aref)) * (cref - aref) ∧
      out.getD idx 0 = 0 := by
  have hd : cref - aref ≠ 0 := by
    have h02 : (0 : ℚ) < ref_scatter_leakage_min := by
      norm_num [ref_scatter_leakage_min]
    exact ne_of_gt (lt_trans h02 hc)
  subst hcref
  subst haref
  subst hidx
  rw [opt_scatter_corr]
  simp only [h1, h2, ne_eq, not_true_eq_false, if_false, ite_false]
  rw [if_neg (not_le.mpr ha), if_neg (not_le.mpr hc)]
  have hidxlt : argminIdx (awlngth.map (fun w => |w - rwlngth|)) <
      awlngth.length := by
    have := argminIdx_lt (awlngth.map (fun w => |w - rwlngth|))
      (by simpa using hne)
    simpa using this
  refine ⟨_, rfl, ?_, ?_⟩
  · rw [getD_zipWith0 _ apd_ts _ _ (by rw [h1]; exact hidxlt)
      (by simpa using hidxlt)]
  · rw [getD_zipWith0 _ apd_ts _ _ (by rw [h1]; exact hidxlt)
      (by simpa using hidxlt)]
    rw [div_mul_cancel₀ _ hd, sub_self]

/-- Witness for C10 at a concrete input. -/
theorem opt_scatter_corr_ref_index_zero_witness :
    ∃ out, opt_scatter_corr [3 / 10, 1 / 20] [400, 715] [4 / 10, 1 / 10]
        [400, 715] 715 = .ok out ∧
      out.getD 1 0 = 1 / 20 - ((1 / 20 : ℚ) / (1 / 10 - 1 / 20)) * (1 / 10 - 1 / 20) ∧
      out.getD 1 0 = 0 :=
  opt_scatter_corr_ref_index_zero [3 / 10, 1 / 20] [400, 715] [4 / 10, 1 / 10]
    [400, 715] 715 1 (1 / 20) (1 / 10)
    (by norm_num [argminIdx, List.map])
    (by norm_num)
    (by norm_num [interp1, List.map])
    rfl rfl (by simp) (by norm_num) (by norm_num [ref_scatter_leakage_min])

/-- C9: `opt_ocr507_irradiance` fails exactly when the channel count
(last dimension) differs from 7 or the four input arrays' shapes
disagree; otherwise it returns `Ed = (counts - offset) * scale *
immersion_factor` elementwise. -/
theorem opt_ocr507_irradiance_spec (counts offset scale immersion_factor :
    List (List ℚ)) :
    ((∃ e, opt_ocr507_irradiance counts offset scale immersion_factor =
        .error e) ↔
      ((counts.headD []).length ≠ 7 ∨
       ¬ (counts.map List.length = offset.map List.length ∧
          counts.map List.length = scale.map List.length ∧
          counts.map List.length = immersion_factor.map List.length))) ∧
    ((counts.headD []).length = 7 →
      counts.map List.length = offset.map List.length →
      counts.map List.length = scale.map List.length →
      counts.map List.length = immersion_factor.map List.length →
      ∃ out, opt_ocr507_irradiance counts offset scale immersion_factor =
          .ok out ∧
        out.length = counts.length ∧
        ∀ i, i < counts.length →
          (out.getD i []).length = (counts.getD i []).length ∧
          ∀ j, j < (counts.getD i []).length →
            (out.getD i []).getD j 0 =
              ((counts.getD i []).getD j 0 - (offset.getD i []).getD j 0) *
                (scale.getD i []).getD j 0 *
                (immersion_factor.getD i []).getD j 0) := by
  constructor
  · rw [opt_ocr507_irradiance]
    split_ifs with g
    · exact iff_of_true ⟨_, rfl⟩ g
    · exact iff_of_false (by simp) g
  · intro h7 m1 m2 m3
    have hlo : offset.length = counts.length := by
      simpa using (congrArg List.length m1).symm
    have hls : scale.length = counts.length := by
      simpa using (congrArg List.length m2).symm
    have hlm : immersion_factor.length = counts.length := by
      simpa using (congrArg List.length m3).symm
    have hrow : ∀ (m : List (List ℚ)), counts.map List.length = m.map List.length →
        ∀ i, i < counts.length → (m.getD i []).length = (counts.getD i []).length := by
      intro m hm i hi
      have hmi : i < m.length := by
        have := congrArg List.length hm
        simp at this
        omega
      have e1 := getD_map List.length [] 0 counts i hi
      have e2 := getD_map List.length [] 0 m i hmi
      rw [← e1, ← e2, hm]
    have hcond : ¬ (((counts.headD []).length ≠ 7) ∨
        ¬ (counts.map List.length = offset.map List.length ∧
           counts.map List.length = scale.map List.length ∧
           counts.map List.length = immersion_factor.map List.length)) := by
      rw [not_or]
      exact ⟨fun hne => hne h7, not_not_intro ⟨m1, m2, m3⟩⟩
    rw [opt_ocr507_irradiance, if_neg hcond]
    refine ⟨_, rfl, ?_, ?_⟩
    · simp [List.length_zip, hlo, hls, hlm]
    · intro i hi
      have hio : i < offset.length := by omega
      have his : i < scale.length := by omega
      have him : i < immersion_factor.length := by omega
      have hzb1 : i < (counts.zip offset).length := by
        simp [List.length_zip]
        omega
      have hzb2 : i < (scale.zip immersion_factor).length := by
        simp [List.length_zip]
        omega
      have hgd : (List.zipWith
          (fun pr qr => List.zipWith (fun a b => a * b)
            (List.zipWith (fun a b => a * b)
              (List.zipWith (fun a b => a - b) pr.1 pr.2) qr.1) qr.2)
          (counts.zip offset) (scale.zip immersion_factor)).getD i [] =
          List.zipWith (fun a b => a * b)
            (List.zipWith (fun a b => a * b)
              (List.zipWith (fun a b => a - b)
                (counts.getD i []) (offset.getD i []))
              (scale.getD i []))
            (immersion_factor.getD i []) := by
        rw [getD_zipWith _ ([], []) ([], []) [] _ _ i hzb1 hzb2]
        rw [List.zip_eq_zipWith, List.zip_eq_zipWith,
          getD_zipWith Prod.mk [] [] ([], []) counts offset i hi hio,
          getD_zipWith Prod.mk [] [] ([], []) scale immersion_factor i his him]
      rw [hgd]
      have hro := hrow offset m1 i hi
      have hrs := hrow scale m2 i hi
      have hrm := hrow immersion_factor m3 i hi
      constructor
      · simp only [List.length_zipWith]
        omega
      · intro j hj
        rw [getD_zipWith0 _ _ _ j
            (by simp only [List.length_zipWith]; omega) (by omega),
          getD_zipWith0 _ _ _ j
            (by simp only [List.length_zipWith]; omega) (by omega),
          getD_zipWith0 _ _ _ j (by omega) (by omega)]


/-- Witness for C9 at a concrete 7-channel input. -/
theorem opt_ocr507_irradiance_spec_witness :
    ∃ out, opt_ocr507_irradiance [[1, 2, 3, 4, 5, 6, 7]] [[0, 0, 0, 0, 0, 0, 0]]
        [[2, 2, 2, 2, 2, 2, 2]] [[1, 1, 1, 1, 1, 1, 1]] = .ok out ∧
      out.length = ([[1, 2, 3, 4, 5, 6, 7]] : List (List ℚ)).length ∧
      ∀ i, i < ([[1, 2, 3, 4, 5, 6, 7]] : List (List ℚ)).length →
        (out.getD i []).length =
          (([[1, 2, 3, 4, 5, 6, 7]] : List (List ℚ)).getD i []).length ∧
        ∀ j, j < (([[1, 2, 3, 4, 5, 6, 7]] : List (List ℚ)).getD i []).length →
          (out.getD i []).getD j 0 =
            ((([[1, 2, 3, 4, 5, 6, 7]] : List (List ℚ)).getD i []).getD j 0 -
              (([[0, 0, 0, 0, 0, 0, 0]] : List (List ℚ)).getD i []).getD j 0) *
              (([[2, 2, 2, 2, 2, 2, 2]] : List (List ℚ)).getD i []).getD j 0 *
              (([[1, 1, 1, 1, 1, 1, 1]] : List (List ℚ)).getD i []).getD j 0 :=
  (opt_ocr507_irradiance_spec [[1, 2, 3, 4, 5, 6, 7]] [[0, 0, 0, 0, 0, 0, 0]]
    [[2, 2, 2, 2, 2, 2, 2]] [[1, 1, 1, 1, 1, 1, 1]]).2 rfl rfl rfl rfl

end OptFunctions
